import Mathlib

set_option maxRecDepth 40000

/-!
Verification of the rw-rs BSF chunk-tree decoder.

Shallow embedding of `src/bsf/mod.rs`, `src/bsf/geo.rs` and `src/bsf/tex.rs`.
Byte slices are `List Nat` (one entry per byte); nom's `IResult` is embedded
as `PResult`, whose `ok` constructor carries the remaining input, `err`
models a returned `nom::Err` value, and `panic` models a Rust panic
(`unwrap` of `None`).  `f32` fields are modeled by their little-endian 32-bit
bit patterns (`f32::from_le_bytes` is a bijection on bit patterns and none of
the decoders computes with the float values).
-/

/-- Outcome of a nom-style parser over a byte list: success with remaining
input, a returned error (`nom::Err`), or a Rust panic. -/
inductive PResult (α : Type) where
  | ok (rest : List Nat) (val : α)
  | err
  | panic
deriving Repr, DecidableEq

/-- Sequencing of parse results; mirrors the `?` operator on `IResult`
(errors and panics propagate). -/
def PResult.bind {α β : Type} (x : PResult α) (f : List Nat → α → PResult β) :
    PResult β :=
  match x with
  | .ok rest val => f rest val
  | .err => .err
  | .panic => .panic

/-- nom `le_u8` (complete): one byte or an `Eof` error. -/
def le_u8 : List Nat → PResult Nat
  | b :: rest => .ok rest b
  | _ => .err

/-- nom `le_u16` (complete): two little-endian bytes. -/
def le_u16 : List Nat → PResult Nat
  | b0 :: b1 :: rest => .ok rest (b0 + 256 * b1)
  | _ => .err

/-- nom `le_u32` (complete): four little-endian bytes. -/
def le_u32 : List Nat → PResult Nat
  | b0 :: b1 :: b2 :: b3 :: rest =>
      .ok rest (b0 + 256 * b1 + 65536 * b2 + 16777216 * b3)
  | _ => .err

/-- nom `le_f32`: reads four bytes; the float is modeled by its LE bit
pattern. -/
def le_f32 : List Nat → PResult Nat := le_u32

/-- nom `bytes::complete::take(n)`: the first `n` bytes, or an `Eof` error
when fewer remain. -/
def takeP (n : Nat) (i : List Nat) : PResult (List Nat) :=
  if n ≤ i.length then .ok (i.drop n) (i.take n) else .err

/-- The `get_chunk_version` from `src/bsf/mod.rs` lines 153-158.  Rust `u32`
arithmetic: the left shift in the legacy branch wraps modulo `2^32`. -/
def get_chunk_version (lib_id : Nat) : Nat :=
  if lib_id &&& 0xFFFF0000 ≠ 0 then
    (((lib_id >>> 14) &&& 0x3FF00) + 0x30000) ||| ((lib_id >>> 16) &&& 0x3F)
  else
    (lib_id <<< 8) % 4294967296

/-- The `get_chunk_build` from `src/bsf/mod.rs` lines 160-165. -/
def get_chunk_build (lib_id : Nat) : Nat :=
  if lib_id &&& 0xFFFF0000 ≠ 0 then lib_id &&& 0xFFFF else 0

/-- The `RwRGBA` from `src/bsf/tex.rs`. -/
structure RwRGBA where
  r : Nat
  g : Nat
  b : Nat
  a : Nat
deriving Repr, DecidableEq

/-- Derived nom parser for `RwRGBA` (four `le_u8` fields). -/
def RwRGBA.parse_le (i : List Nat) : PResult RwRGBA :=
  (le_u8 i).bind fun i r =>
  (le_u8 i).bind fun i g =>
  (le_u8 i).bind fun i b =>
  (le_u8 i).bind fun i a =>
  .ok i { r, g, b, a }

/-- The `RwTexCoords` from `src/bsf/tex.rs` (two `f32` fields, modeled as bit
patterns). -/
structure RwTexCoords where
  u : Nat
  v : Nat
deriving Repr, DecidableEq

/-- Derived nom parser for `RwTexCoords`. -/
def RwTexCoords.parse_le (i : List Nat) : PResult RwTexCoords :=
  (le_f32 i).bind fun i u =>
  (le_f32 i).bind fun i v =>
  .ok i { u, v }

/-- The `RpSurfProp` from `src/bsf/tex.rs` (three `f32` fields). -/
structure RpSurfProp where
  ambient : Nat
  specular : Nat
  diffuse : Nat
deriving Repr, DecidableEq

/-- Derived nom parser for `RpSurfProp`. -/
def RpSurfProp.parse_le (i : List Nat) : PResult RpSurfProp :=
  (le_f32 i).bind fun i ambient =>
  (le_f32 i).bind fun i specular =>
  (le_f32 i).bind fun i diffuse =>
  .ok i { ambient, specular, diffuse }

/-- The `RpTriangle` from `src/bsf/geo.rs`: the field storage order is
vertex2, vertex1, material_id, vertex3. -/
structure RpTriangle where
  vertex2 : Nat
  vertex1 : Nat
  material_id : Nat
  vertex3 : Nat
deriving Repr, DecidableEq

/-- Derived nom parser for `RpTriangle` (four `le_u16` fields in storage
order). -/
def RpTriangle.parse_le (i : List Nat) : PResult RpTriangle :=
  (le_u16 i).bind fun i vertex2 =>
  (le_u16 i).bind fun i vertex1 =>
  (le_u16 i).bind fun i material_id =>
  (le_u16 i).bind fun i vertex3 =>
  .ok i { vertex2, vertex1, material_id, vertex3 }

/-- The `RwV3d` from `src/bsf/geo.rs`. -/
structure RwV3d where
  x : Nat
  y : Nat
  z : Nat
deriving Repr, DecidableEq

/-- Derived nom parser for `RwV3d`. -/
def RwV3d.parse_le (i : List Nat) : PResult RwV3d :=
  (le_f32 i).bind fun i x =>
  (le_f32 i).bind fun i y =>
  (le_f32 i).bind fun i z =>
  .ok i { x, y, z }

/-- The `RwSphere` from `src/bsf/geo.rs`. -/
structure RwSphere where
  pos : RwV3d
  radius : Nat
deriving Repr, DecidableEq

/-- Derived nom parser for `RwSphere`. -/
def RwSphere.parse_le (i : List Nat) : PResult RwSphere :=
  (RwV3d.parse_le i).bind fun i pos =>
  (le_f32 i).bind fun i radius =>
  .ok i { pos, radius }

/-- nom `multi::count`: applies a parser exactly `n` times, propagating
errors and panics. -/
def countP {α : Type} (p : List Nat → PResult α) : Nat → List Nat → PResult (List α)
  | 0, i => .ok i []
  | n + 1, i =>
    (p i).bind fun i v =>
    (countP p n i).bind fun i vs =>
    .ok i (v :: vs)

/-- The `TextureFilteringMode` from `src/bsf/tex.rs` (`repr(u8)`,
discriminants 0 through 6). -/
inductive TextureFilteringMode where
  | FILTERNAFILTERMODE
  | FILTERNEAREST
  | FILTERLINEAR
  | FILTERMIPNEAREST
  | FILTERMIPLINEAR
  | FILTERLINEARMIPNEAREST
  | FILTERLINEARMIPLINEAR
deriving Repr, DecidableEq

/-- The `num_traits` `FromPrimitive::from_u8` for `TextureFilteringMode`. -/
def TextureFilteringMode.from_u8 : Nat → Option TextureFilteringMode
  | 0 => some .FILTERNAFILTERMODE
  | 1 => some .FILTERNEAREST
  | 2 => some .FILTERLINEAR
  | 3 => some .FILTERMIPNEAREST
  | 4 => some .FILTERMIPLINEAR
  | 5 => some .FILTERLINEARMIPNEAREST
  | 6 => some .FILTERLINEARMIPLINEAR
  | _ => none

/-- Derived nom parser for `TextureFilteringMode`: reads one byte and fails
with a nom error on an unknown discriminant. -/
def TextureFilteringMode.parse_le (i : List Nat) : PResult TextureFilteringMode :=
  (le_u8 i).bind fun i b =>
  match TextureFilteringMode.from_u8 b with
  | some m => .ok i m
  | none => .err

/-- The `TextureAddressingMode` from `src/bsf/tex.rs` (`repr(u8)`,
discriminants 0 through 4). -/
inductive TextureAddressingMode where
  | TEXTUREADDRESSNATEXTUREADDRESS
  | TEXTUREADDRESSWRAP
  | TEXTUREADDRESSMIRROR
  | TEXTUREADDRESSCLAMP
  | TEXTUREADDRESSBORDER
deriving Repr, DecidableEq

/-- The `num_traits` `FromPrimitive::from_u8` for `TextureAddressingMode`:
`none` for any value above 4. -/
def TextureAddressingMode.from_u8 : Nat → Option TextureAddressingMode
  | 0 => some .TEXTUREADDRESSNATEXTUREADDRESS
  | 1 => some .TEXTUREADDRESSWRAP
  | 2 => some .TEXTUREADDRESSMIRROR
  | 3 => some .TEXTUREADDRESSCLAMP
  | 4 => some .TEXTUREADDRESSBORDER
  | _ => none

/-- The `RpTexture` from `src/bsf/tex.rs`. -/
structure RpTexture where
  filtering : TextureFilteringMode
  addressing : TextureAddressingMode × TextureAddressingMode
  has_mip : Bool
deriving Repr, DecidableEq

/-- The `RpTexture::parse` from `src/bsf/tex.rs` lines 103-122.  The two
addressing nibbles go through `FromPrimitive::from_u8(..).unwrap()`: an
out-of-range nibble is a Rust panic, not a returned error. -/
def RpTexture.parse (i : List Nat) : PResult RpTexture :=
  (TextureFilteringMode.parse_le i).bind fun i filtering =>
  (le_u8 i).bind fun i addr =>
  match TextureAddressingMode.from_u8 ((addr &&& 0b11110000) >>> 4) with
  | none => .panic
  | some addr_h =>
    match TextureAddressingMode.from_u8 (addr &&& 0b00001111) with
    | none => .panic
    | some addr_l =>
      (le_u16 i).bind fun i has_mip =>
      .ok i { filtering, addressing := (addr_h, addr_l), has_mip := has_mip != 0 }

/-- The `RpMaterial` from `src/bsf/tex.rs`. -/
structure RpMaterial where
  color : RwRGBA
  surface_prop : Option RpSurfProp
deriving Repr, DecidableEq

/-- The `RpMaterial::parse` from `src/bsf/tex.rs` lines 51-73. -/
def RpMaterial.parse (i : List Nat) (version : Nat) : PResult RpMaterial :=
  (le_u32 i).bind fun i _flags =>
  (RwRGBA.parse_le i).bind fun i color =>
  (le_u32 i).bind fun i _unused =>
  (le_u32 i).bind fun i _is_textured =>
  if version > 0x30400 then
    (RpSurfProp.parse_le i).bind fun i s =>
    .ok i { color, surface_prop := some s }
  else
    .ok i { color, surface_prop := none }

/-- The `RpGeometry` from `src/bsf/geo.rs`. -/
structure RpGeometry where
  format : Nat
  num_triangles : Nat
  num_vertices : Nat
  num_morphs : Nat
  surface_prop : Option RpSurfProp
  prelit : List RwRGBA
  tex_coords : List (List RwTexCoords)
  triangles : List RpTriangle
  vertices : List RwV3d
  normals : List RwV3d
deriving Repr, DecidableEq

/-- Format-flag constants from `src/bsf/geo.rs`. -/
def RP_GEOMETRYTRISTRIP : Nat := 0x00000001

/-- Textured bit. -/
def RP_GEOMETRYTEXTURED : Nat := 0x00000004

/-- Prelit bit. -/
def RP_GEOMETRYPRELIT : Nat := 0x00000008

/-- Second textured bit. -/
def RP_GEOMETRYTEXTURED2 : Nat := 0x00000080

/-- Native-platform-data bit. -/
def RP_GEOMETRYNATIVE : Nat := 0x01000000

/-- The texture-set count computation from `src/bsf/geo.rs` lines 69-77.
In Rust `u32` arithmetic `(format & 0x00FF0000) << 16` wraps modulo `2^32`
(every bit of the masked value is shifted past bit 31), so the first
expression is identically zero. -/
def numTexSets (format : Nat) : Nat :=
  let n := ((format &&& 0x00FF0000) <<< 16) % 4294967296
  if n = 0 then
    let n1 := if format &&& RP_GEOMETRYTEXTURED ≠ 0 then 1 else n
    if format &&& RP_GEOMETRYTEXTURED2 ≠ 0 then 2 else n1
  else n

/-- The `RpGeometry::parse` from `src/bsf/geo.rs` lines 62-132. -/
def RpGeometry.parse (i : List Nat) (version : Nat) : PResult RpGeometry :=
  (le_u32 i).bind fun i format =>
  (le_u32 i).bind fun i num_triangles =>
  (le_u32 i).bind fun i num_vertices =>
  (le_u32 i).bind fun i num_morphs =>
  let num_tex_sets := numTexSets format
  (if version < 0x34000 then
    (RpSurfProp.parse_le i).bind fun i s => .ok i (some s)
  else
    .ok i (none : Option RpSurfProp)).bind fun i surface_prop =>
  (if format &&& RP_GEOMETRYNATIVE = 0 then
    (if format &&& RP_GEOMETRYPRELIT ≠ 0 then
      countP RwRGBA.parse_le num_vertices i
    else
      .ok i []).bind fun i prelit =>
    (countP (countP RwTexCoords.parse_le num_vertices) num_tex_sets i).bind
      fun i tex_coords =>
    (countP RpTriangle.parse_le num_triangles i).bind fun i triangles =>
    .ok i (prelit, tex_coords, triangles)
  else
    .ok i (([] : List RwRGBA), ([] : List (List RwTexCoords)),
      ([] : List RpTriangle))).bind fun i sections =>
  (RwSphere.parse_le i).bind fun i _sphere =>
  (le_u32 i).bind fun i has_vertices =>
  (le_u32 i).bind fun i has_normals =>
  (if has_vertices > 0 then
    countP RwV3d.parse_le num_vertices i
  else
    .ok i []).bind fun i vertices =>
  (if has_normals > 0 then
    countP RwV3d.parse_le num_vertices i
  else
    .ok i []).bind fun i normals =>
  .ok i { format, num_triangles, num_vertices, num_morphs, surface_prop,
          prelit := sections.1, tex_coords := sections.2.1,
          triangles := sections.2.2, vertices, normals }

/-- The `RpMaterialList`: imported by the dispatcher in `src/bsf/mod.rs` but its
definition is not under `src/`.  Modelled from the spec: the spec gives no
field-level grammar for the material-list struct payload (its §4.4 lists
dedicated grammars only for Text, Geometry, Material, Texture and Raster),
so the struct is modelled minimally as one little-endian `u32` (the count of
following material children implied by the data model).  No claim depends on
this grammar's details. -/
structure RpMaterialList where
  mat_count : Nat
deriving Repr, DecidableEq

/-- Modelled from the spec: parse for `RpMaterialList` (see the structure's
doc comment); reads one `le_u32`. -/
def RpMaterialList.parse (i : List Nat) (_version : Nat) : PResult RpMaterialList :=
  (le_u32 i).bind fun i c =>
  .ok i { mat_count := c }

/-- The `RpRasterPC` from `src/bsf/tex.rs`.  The two 32-byte name fields hold
the raw bytes; `String::from_utf8_lossy` is modeled as the identity on the
byte sequence (no claim inspects the decoded text). -/
structure RpRasterPC where
  platform_id : Nat
  filtering : TextureFilteringMode
  addressing : TextureAddressingMode × TextureAddressingMode
  name : List Nat
  mask_name : List Nat
  raster_format : Nat
  d3d_format : Nat
  width : Nat
  height : Nat
  depth : Nat
  num_levels : Nat
  raster_type : Nat
  compression : Nat
  has_alpha : Bool
  cube_texture : Bool
  auto_mipmaps : Bool
  compressed : Bool
  data : List Nat
deriving Repr, DecidableEq

/-- The `RpRasterPC::parse` from `src/bsf/tex.rs` lines 164-237.  The filtering
and addressing enumerators go through `from_u8(..).unwrap()` (panic on
out-of-range values); the function consumes the whole input and returns an
empty remainder. -/
def RpRasterPC.parse (i : List Nat) (version : Nat) : PResult RpRasterPC :=
  (le_u32 i).bind fun i platform_id =>
  (le_u32 i).bind fun i lump =>
  match TextureFilteringMode.from_u8 ((lump >>> 24) &&& 0xFF) with
  | none => .panic
  | some filtering =>
    let addr := (lump >>> 16) &&& 0b000000011111111
    match TextureAddressingMode.from_u8 ((addr &&& 0b11110000) >>> 4) with
    | none => .panic
    | some addr_h =>
      match TextureAddressingMode.from_u8 (addr &&& 0b00001111) with
      | none => .panic
      | some addr_l =>
        (takeP 32 i).bind fun i name =>
        (takeP 32 i).bind fun i mask_name =>
        (le_u32 i).bind fun i raster_format =>
        (le_u32 i).bind fun i temp0 =>
        let has_alpha0 := if version < 0x36003 then temp0 > 0 else False
        let d3d_format := if version < 0x36003 then 0 else temp0
        (le_u16 i).bind fun i width =>
        (le_u16 i).bind fun i height =>
        (le_u8 i).bind fun i depth =>
        (le_u8 i).bind fun i num_levels =>
        (le_u8 i).bind fun i raster_type =>
        (le_u8 i).bind fun i temp1 =>
        let compression := if version < 0x36003 then temp1 else 0
        let has_alpha :=
          if version < 0x36003 then has_alpha0 else ((temp1 >>> 7) &&& 1) > 0
        let cube_texture :=
          if version < 0x36003 then False else ((temp1 >>> 6) &&& 1) > 0
        let auto_mipmaps :=
          if version < 0x36003 then False else ((temp1 >>> 5) &&& 1) > 0
        let compressed :=
          if version < 0x36003 then False else ((temp1 >>> 4) &&& 1) > 0
        .ok [] { platform_id, filtering, addressing := (addr_h, addr_l),
                 name, mask_name, raster_format, d3d_format, width, height,
                 depth, num_levels, raster_type, compression,
                 has_alpha := decide has_alpha,
                 cube_texture := decide cube_texture,
                 auto_mipmaps := decide auto_mipmaps,
                 compressed := decide compressed, data := i }

/-- The `ChunkHeader` from `src/bsf/mod.rs` lines 99-103: version and build
resolved from the packed library id. -/
structure ChunkHeader where
  version : Nat
  build : Nat
deriving Repr, DecidableEq

/-- The `ChunkHeader::parse` from `src/bsf/mod.rs` lines 105-117. -/
def ChunkHeader.parse (i : List Nat) : PResult ChunkHeader :=
  (le_u32 i).bind fun i lib_id =>
  .ok i { version := get_chunk_version lib_id, build := get_chunk_build lib_id }

/-- The `ChunkContent` from `src/bsf/mod.rs` lines 40-58.  The `String` variant
holds the UTF-8 bytes of the null-trimmed decoded string. -/
inductive ChunkContent where
  | Section (ty : Nat) (bytes : List Nat)
  | Struct (bytes : List Nat)
  | String (bytes : List Nat)
  | Extension
  | Camera
  | Texture (t : RpTexture)
  | Material (m : RpMaterial)
  | MaterialList (ml : RpMaterialList)
  | FrameList
  | Geometry (g : RpGeometry)
  | Clump
  | Atomic
  | Raster (r : RpRasterPC)
  | TextureDictionary
  | GeometryList
deriving Repr, DecidableEq

/-- The `Chunk` from `src/bsf/mod.rs` lines 119-124. -/
inductive Chunk where
  | mk (header : ChunkHeader) (content : ChunkContent)
      (children : Option (List Chunk))

/-- Header projection. -/
def Chunk.header : Chunk → ChunkHeader
  | .mk h _ _ => h

/-- Content projection. -/
def Chunk.content : Chunk → ChunkContent
  | .mk _ c _ => c

/-- Children projection. -/
def Chunk.children : Chunk → Option (List Chunk)
  | .mk _ _ cs => cs

/-- Exact UTF-8 validity of a byte sequence (RFC 3629), modeling
`std::str::from_utf8(..).is_ok()`. -/
def utf8Valid : List Nat → Bool
  | [] => true
  | b :: rest =>
    if b < 0x80 then utf8Valid rest
    else if 0xC2 ≤ b ∧ b ≤ 0xDF then
      match rest with
      | c1 :: rest1 =>
        if 0x80 ≤ c1 ∧ c1 ≤ 0xBF then utf8Valid rest1 else false
      | [] => false
    else if 0xE0 ≤ b ∧ b ≤ 0xEF then
      match rest with
      | c1 :: c2 :: rest2 =>
        let lo1 := if b = 0xE0 then 0xA0 else 0x80
        let hi1 := if b = 0xED then 0x9F else 0xBF
        if lo1 ≤ c1 ∧ c1 ≤ hi1 ∧ 0x80 ≤ c2 ∧ c2 ≤ 0xBF then utf8Valid rest2
        else false
      | _ => false
    else if 0xF0 ≤ b ∧ b ≤ 0xF4 then
      match rest with
      | c1 :: c2 :: c3 :: rest3 =>
        let lo1 := if b = 0xF0 then 0x90 else 0x80
        let hi1 := if b = 0xF4 then 0x8F else 0xBF
        if lo1 ≤ c1 ∧ c1 ≤ hi1 ∧ 0x80 ≤ c2 ∧ c2 ≤ 0xBF ∧
            0x80 ≤ c3 ∧ c3 ≤ 0xBF then utf8Valid rest3
        else false
      | _ => false
    else false

/-- Rust `str::trim_matches('\0')`: drops NUL bytes from both ends. -/
def trimNulls (l : List Nat) : List Nat :=
  ((l.dropWhile (fun b => b = 0)).reverse.dropWhile (fun b => b = 0)).reverse

/-- The string decoding of `src/bsf/mod.rs` lines 70-75:
`from_utf8(i).unwrap_or("").trim_matches('\0')`; invalid UTF-8 degrades to
the empty string. -/
def rwString (i : List Nat) : List Nat :=
  if utf8Valid i then trimNulls i else []

/-- Result of the `retain` pass of `parse_struct_and_children`: a value, or
a Rust panic propagated out of a struct decoder invoked by the closure. -/
inductive POut (α : Type) where
  | val (a : α)
  | panic

/-- The `children.retain(..)` closure of `parse_struct_and_children`
(`src/bsf/mod.rs` lines 22-33): walks the children in order, removes every
child whose content is `Struct` and whose bytes parse under `try_`, and
keeps the last successful parse in the accumulator (later successes
overwrite earlier ones, as successive `struc = Some(..)` assignments do). -/
def retainStruct {α : Type} (try_ : List Nat → PResult α) (acc : Option α) :
    List Chunk → POut (Option α × List Chunk)
  | [] => .val (acc, [])
  | c :: rest =>
    match Chunk.content c with
    | .Struct bytes =>
      match try_ bytes with
      | .ok _ s => retainStruct try_ (some s) rest
      | .err =>
        match retainStruct try_ acc rest with
        | .val (a, kept) => .val (a, c :: kept)
        | .panic => .panic
      | .panic => .panic
    | _ =>
      match retainStruct try_ acc rest with
      | .val (a, kept) => .val (a, c :: kept)
      | .panic => .panic

/-- Tail of `parse_struct_and_children` (`src/bsf/mod.rs` lines 34-37):
`struc.unwrap()` panics when no struct child parsed; otherwise the struct is
absorbed into the content and the retained children are returned. -/
def structAndChildren {α : Type} (try_ : List Nat → PResult α)
    (mk : α → ChunkContent) (restAfter : List Nat) (children : List Chunk) :
    PResult (ChunkContent × Option (List Chunk)) :=
  match retainStruct try_ none children with
  | .panic => .panic
  | .val (none, _) => .panic
  | .val (some s, kept) => .ok restAfter (mk s, some kept)

/-- The tag dispatch of `ChunkContent::parse` (`src/bsf/mod.rs` lines
59-97), with the result of `many0(Chunk::parse)` over the payload abstracted
as `m` (every children-bearing branch applies the same `many0` to the same
payload slice, so this is the macro-expanded match body verbatim up to that
common subexpression). -/
def contentDispatch (m : PResult (List Chunk)) (i : List Nat)
    (ty version : Nat) : PResult (ChunkContent × Option (List Chunk)) :=
  match ty with
  | 0x01 => .ok [] (.Struct i, none)
  | 0x02 => .ok [] (.String (rwString i), none)
  | 0x03 => m.bind fun r cs => .ok r (.Extension, some cs)
  | 0x05 => m.bind fun r cs => .ok r (.Camera, some cs)
  | 0x06 => m.bind fun r cs =>
      structAndChildren (fun b => RpTexture.parse b) ChunkContent.Texture r cs
  | 0x07 => m.bind fun r cs =>
      structAndChildren (fun b => RpMaterial.parse b version)
        ChunkContent.Material r cs
  | 0x08 => m.bind fun r cs =>
      structAndChildren (fun b => RpMaterialList.parse b version)
        ChunkContent.MaterialList r cs
  | 0x0E => m.bind fun r cs => .ok r (.FrameList, some cs)
  | 0x0F => m.bind fun r cs =>
      structAndChildren (fun b => RpGeometry.parse b version)
        ChunkContent.Geometry r cs
  | 0x10 => m.bind fun r cs => .ok r (.Clump, some cs)
  | 0x14 => m.bind fun r cs => .ok r (.Atomic, some cs)
  | 0x15 => m.bind fun r cs =>
      structAndChildren (fun b => RpRasterPC.parse b version)
        ChunkContent.Raster r cs
  | 0x16 => m.bind fun r cs => .ok r (.TextureDictionary, some cs)
  | 0x1A => m.bind fun r cs => .ok r (.GeometryList, some cs)
  | _ => .ok [] (.Section ty i, none)

mutual

/-- Fuel-indexed `Chunk::parse` (`src/bsf/mod.rs` lines 126-142): type tag,
declared size, header, `take(size)` payload, content dispatch; the content
parser's leftover is discarded (`let (_, ..) = ..`).  The fuel only bounds
the recursion depth; `Chunk.parse` below instantiates it sufficiently. -/
def chunkParseF : Nat → List Nat → PResult Chunk
  | 0, _ => .err
  | fuel + 1, i =>
    (le_u32 i).bind fun i ty =>
    (le_u32 i).bind fun i size =>
    (ChunkHeader.parse i).bind fun i header =>
    (takeP size i).bind fun i data =>
    match contentParseF fuel data ty header.version with
    | .ok _ cc => .ok i (Chunk.mk header cc.1 cc.2)
    | .err => .err
    | .panic => .panic

/-- Fuel-indexed `ChunkContent::parse`: the dispatch applied to the
children parse of the payload. -/
def contentParseF : Nat → List Nat → Nat → Nat →
    PResult (ChunkContent × Option (List Chunk))
  | 0, _, _, _ => .err
  | fuel + 1, i, ty, version =>
    contentDispatch (many0ChunkF fuel i) i ty version

/-- Fuel-indexed nom `many0(Chunk::parse)`: stops (successfully) at the
first input position where the inner parser returns an error, propagates
panics, and applies nom's `Many0` infinite-loop guard when an iteration
consumes nothing. -/
def many0ChunkF : Nat → List Nat → PResult (List Chunk)
  | 0, _ => .err
  | fuel + 1, i =>
    match chunkParseF fuel i with
    | .err => .ok i []
    | .panic => .panic
    | .ok rest c =>
      if rest.length = i.length then .err
      else
        match many0ChunkF fuel rest with
        | .ok r cs => .ok r (c :: cs)
        | .err => .err
        | .panic => .panic

end

/-- The `Chunk::parse`: the fuel `i.length + 2` is sufficient (proved by the
canonicalization lemma below). -/
def Chunk.parse (i : List Nat) : PResult Chunk := chunkParseF (i.length + 2) i

/-- The `ChunkContent::parse` at sufficient fuel. -/
def ChunkContent.parse (i : List Nat) (ty version : Nat) :
    PResult (ChunkContent × Option (List Chunk)) :=
  contentParseF (i.length + 13) i ty version

/-- The `many0(Chunk::parse)` at sufficient fuel. -/
def many0Chunk (i : List Nat) : PResult (List Chunk) :=
  many0ChunkF (i.length + 3) i

/-- The declared payload size of a framed chunk: the little-endian word in
bytes 4..8 of its framed region. -/
def declaredSize (i : List Nat) : Option Nat :=
  match le_u32 (List.drop 4 i) with
  | .ok _ v => some v
  | _ => none

/-- A child whose content is `Struct` and whose bytes parse under `g`. -/
def isStructMatch {α : Type} (g : List Nat → PResult α) (c : Chunk) : Prop :=
  ∃ bytes, Chunk.content c = .Struct bytes ∧ ∃ r s, g bytes = .ok r s

/-- Concrete geometry payload for the texture-channel-count computation:
format 0x00030000 (channel sub-field 3, textured bits clear), no triangles,
one vertex, no morphs, bounding sphere, both presence flags 0. -/
def geoC5 : List Nat :=
  [0, 0, 3, 0] ++ [0, 0, 0, 0] ++ [1, 0, 0, 0] ++ [0, 0, 0, 0] ++
    List.replicate 16 0 ++ [0, 0, 0, 0] ++ [0, 0, 0, 0]

/-- Concrete geometry payload with the native bit set and nonzero declared
counts: format 0x01000000, 5 triangles, 2 vertices, 1 morph, bounding
sphere, has-vertices 1, has-normals 0, two vertex records. -/
def geoC6 : List Nat :=
  [0, 0, 0, 1] ++ [5, 0, 0, 0] ++ [2, 0, 0, 0] ++ [1, 0, 0, 0] ++
    List.replicate 16 0 ++ [1, 0, 0, 0] ++ [0, 0, 0, 0] ++
    List.replicate 24 0

/-- Concrete 28-byte material payload (all zero). -/
def mat28 : List Nat := List.replicate 28 0

/-- Concrete framed buffer: an Extension container holding an unknown-tag
chunk (tag 0xDEADBEEF, declared size 3, lib id 0, payload [1,2,3]) followed
by a second sibling with unknown tag 0x99 and empty payload. -/
def c3buf : List Nat :=
  [0x03, 0, 0, 0, 27, 0, 0, 0, 0, 0, 0, 0] ++
    ([0xEF, 0xBE, 0xAD, 0xDE, 3, 0, 0, 0, 0, 0, 0, 0] ++ [1, 2, 3]) ++
    [0x99, 0, 0, 0, 0, 0, 0, 0, 0, 0, 0, 0]

/-- Concrete framed buffer: an Extension chunk whose declared size is 5 but
whose 5 payload bytes do not parse as any child chunk. -/
def c4buf : List Nat := [3, 0, 0, 0, 5, 0, 0, 0, 0, 0, 0, 0] ++ [0, 0, 0, 0, 0]

/-- Concrete framed buffer: a Texture chunk whose Struct child carries the
4-byte payload [0, 5, 0, 0] (addressing byte 0x05: low nibble 5 is outside
the addressing enumeration). -/
def c9buf : List Nat :=
  [0x06, 0, 0, 0, 16, 0, 0, 0, 0, 0, 0, 0] ++
    ([0x01, 0, 0, 0, 4, 0, 0, 0, 0, 0, 0, 0] ++ [0, 5, 0, 0])

/-- Concrete payload of a Material chunk: a single Struct child with an
empty payload, which the material grammar rejects. -/
def c10badData : List Nat := [0x01, 0, 0, 0, 0, 0, 0, 0, 0, 0, 0, 0]

/-- Concrete framed buffer: a Material chunk with an empty payload (no
children at all, hence no Struct child). -/
def c10chunk : List Nat := [0x07, 0, 0, 0, 0, 0, 0, 0, 0, 0, 0, 0]

/-- Inversion of `PResult.bind` at a successful result. -/
theorem PResult.bind_eq_ok {α β : Type} {x : PResult α}
    {f : List Nat → α → PResult β} {r : List Nat} {b : β} :
    x.bind f = .ok r b ↔ ∃ r1 a, x = .ok r1 a ∧ f r1 a = .ok r b := by
  cases x with
  | ok rest val =>
    simp only [PResult.bind, PResult.ok.injEq]
    constructor
    · intro h; exact ⟨rest, val, ⟨rfl, rfl⟩, h⟩
    · rintro ⟨r1, a, ⟨h1, h2⟩, h3⟩; subst h1; subst h2; exact h3
  | err => simp [PResult.bind]
  | panic => simp [PResult.bind]

/-- A successful `le_u8` consumes exactly one byte. -/
theorem le_u8_ok {i r : List Nat} {v : Nat} (h : le_u8 i = .ok r v) :
    r = i.drop 1 ∧ i.length = r.length + 1 := by
  match i with
  | [] => simp [le_u8] at h
  | b :: rest => simp [le_u8] at h; simp [h.1]

/-- A successful `le_u16` consumes exactly two bytes. -/
theorem le_u16_ok {i r : List Nat} {v : Nat} (h : le_u16 i = .ok r v) :
    r = i.drop 2 ∧ i.length = r.length + 2 := by
  match i with
  | [] | [_] => simp [le_u16] at h
  | b0 :: b1 :: rest => simp [le_u16] at h; simp [h.1]

/-- A successful `le_u32` consumes exactly four bytes. -/
theorem le_u32_ok {i r : List Nat} {v : Nat} (h : le_u32 i = .ok r v) :
    r = i.drop 4 ∧ i.length = r.length + 4 := by
  match i with
  | [] | [_] | [_, _] | [_, _, _] => simp [le_u32] at h
  | b0 :: b1 :: b2 :: b3 :: rest => simp [le_u32] at h; simp [h.1]

/-- The `le_u32` succeeds whenever at least four bytes remain. -/
theorem le_u32_total {i : List Nat} (h : 4 ≤ i.length) :
    ∃ r v, le_u32 i = .ok r v := by
  match i with
  | [] | [_] | [_, _] | [_, _, _] => simp at h
  | b0 :: b1 :: b2 :: b3 :: rest => exact ⟨rest, _, rfl⟩

/-- A successful `ChunkHeader.parse` consumes exactly four bytes. -/
theorem chunkHeader_parse_ok {i r : List Nat} {h : ChunkHeader}
    (hp : ChunkHeader.parse i = .ok r h) :
    r = i.drop 4 ∧ i.length = r.length + 4 := by
  rw [ChunkHeader.parse, PResult.bind_eq_ok] at hp
  obtain ⟨r1, v, h1, h2⟩ := hp
  simp only [PResult.ok.injEq] at h2
  obtain ⟨hr, _⟩ := h2
  subst hr
  exact le_u32_ok h1

/-- A successful `takeP` consumes exactly `n` bytes. -/
theorem takeP_ok {n : Nat} {i r data : List Nat}
    (h : takeP n i = .ok r data) :
    n ≤ i.length ∧ r = i.drop n ∧ data = i.take n := by
  rw [takeP] at h
  split at h
  · simp only [PResult.ok.injEq] at h
    exact ⟨by assumption, h.1.symm, h.2.symm⟩
  · cases h

/-- The `countP` returns exactly `n` items on success. -/
theorem countP_ok_length {α : Type} {p : List Nat → PResult α} :
    ∀ {n : Nat} {i r : List Nat} {vs : List α},
      countP p n i = .ok r vs → vs.length = n := by
  intro n
  induction n with
  | zero =>
    intro i r vs h
    rw [countP] at h
    simp only [PResult.ok.injEq] at h
    simp [h.2.symm]
  | succ n IH =>
    intro i r vs h
    rw [countP, PResult.bind_eq_ok] at h
    obtain ⟨r1, a, h1, h2⟩ := h
    rw [PResult.bind_eq_ok] at h2
    obtain ⟨r2, vs2, h3, h4⟩ := h2
    simp only [PResult.ok.injEq] at h4
    rw [h4.2.symm]
    simp [IH h3]

/-- Shape of a successful `chunkParseF`: the declared size is the word at
bytes 4..8, exactly `12 + size` bytes are consumed, and the remainder is
the input minus that prefix. -/
theorem chunkParseF_ok_shape : ∀ {fuel : Nat} {i rest : List Nat} {c : Chunk},
    chunkParseF fuel i = .ok rest c →
    ∃ size, declaredSize i = some size ∧ size + 12 ≤ i.length ∧
      rest = i.drop (12 + size) ∧ i.length = 12 + size + rest.length := by
  intro fuel i rest c h
  match fuel with
  | 0 => rw [chunkParseF] at h; cases h
  | fuel + 1 =>
    rw [chunkParseF, PResult.bind_eq_ok] at h
    obtain ⟨i1, ty, h1, h⟩ := h
    rw [PResult.bind_eq_ok] at h
    obtain ⟨i2, size, h2, h⟩ := h
    rw [PResult.bind_eq_ok] at h
    obtain ⟨i3, header, h3, h⟩ := h
    rw [PResult.bind_eq_ok] at h
    obtain ⟨i4, data, h4, h⟩ := h
    obtain ⟨hd1, hl1⟩ := le_u32_ok h1
    obtain ⟨hd2, hl2⟩ := le_u32_ok h2
    obtain ⟨hd3, hl3⟩ := chunkHeader_parse_ok h3
    obtain ⟨hle, hd4, _⟩ := takeP_ok h4
    have hrest : i4 = rest := by
      cases hcc : contentParseF fuel data ty header.version with
      | ok r cc => rw [hcc] at h; simp only [PResult.ok.injEq] at h; exact h.1
      | err => rw [hcc] at h; cases h
      | panic => rw [hcc] at h; cases h
    have hrlen : rest.length = i3.length - size := by
      rw [← hrest, hd4]; simp
    refine ⟨size, ?_, by omega, ?_, by omega⟩
    · rw [declaredSize, ← hd1, h2]
    · rw [← hrest, hd4, hd3, hd2, hd1]
      simp only [List.drop_drop]

/-- Canonicalization: any sufficient fuel computes the same result as the
official fuel used by `Chunk.parse`, `ChunkContent.parse` and `many0Chunk`. -/
theorem parse_fuel_canon : ∀ fuel : Nat,
    (∀ i : List Nat, i.length + 2 ≤ fuel → chunkParseF fuel i = Chunk.parse i) ∧
    (∀ (i : List Nat) (ty version : Nat), i.length + 13 ≤ fuel →
      contentParseF fuel i ty version = ChunkContent.parse i ty version) ∧
    (∀ i : List Nat, i.length + 3 ≤ fuel → many0ChunkF fuel i = many0Chunk i) := by
  intro fuel
  induction fuel using Nat.strong_induction_on with
  | _ fuel IH =>
  refine ⟨fun i hle => ?_, fun i ty version hle => ?_, fun i hle => ?_⟩
  · -- chunkParseF at any sufficient fuel equals Chunk.parse
    obtain ⟨f, rfl⟩ : ∃ g, fuel = g + 1 := ⟨fuel - 1, by omega⟩
    show chunkParseF (f + 1) i = chunkParseF (i.length + 1 + 1) i
    rw [chunkParseF, chunkParseF]
    cases h1 : le_u32 i with
    | err => rfl
    | panic => rfl
    | ok i1 ty =>
      simp only [PResult.bind]
      cases h2 : le_u32 i1 with
      | err => rfl
      | panic => rfl
      | ok i2 size =>
        simp only [PResult.bind]
        cases h3 : ChunkHeader.parse i2 with
        | err => rfl
        | panic => rfl
        | ok i3 header =>
          simp only [PResult.bind]
          cases h4 : takeP size i3 with
          | err => rfl
          | panic => rfl
          | ok i4 data =>
            simp only [PResult.bind]
            obtain ⟨hd1, hl1⟩ := le_u32_ok h1
            obtain ⟨hd2, hl2⟩ := le_u32_ok h2
            obtain ⟨hd3, hl3⟩ := chunkHeader_parse_ok h3
            obtain ⟨hle4, hd4, hdata⟩ := takeP_ok h4
            have hdlen : data.length + 12 ≤ i.length := by
              have : data.length ≤ i3.length := by
                rw [hdata]; exact (List.length_take _ _).le.trans (by simp)
              omega
            have e1 : contentParseF f data ty header.version =
                ChunkContent.parse data ty header.version :=
              (IH f (by omega)).2.1 data ty header.version (by omega)
            have e2 : contentParseF (i.length + 1) data ty header.version =
                ChunkContent.parse data ty header.version :=
              (IH (i.length + 1) (by omega)).2.1 data ty header.version
                (by omega)
            rw [e1, e2]
  · -- contentParseF at any sufficient fuel equals ChunkContent.parse
    obtain ⟨f, rfl⟩ : ∃ g, fuel = g + 1 := ⟨fuel - 1, by omega⟩
    show contentParseF (f + 1) i ty version =
      contentParseF (i.length + 12 + 1) i ty version
    rw [contentParseF, contentParseF]
    have e1 : many0ChunkF f i = many0Chunk i :=
      (IH f (by omega)).2.2 i (by omega)
    have e2 : many0ChunkF (i.length + 12) i = many0Chunk i :=
      (IH (i.length + 12) (by omega)).2.2 i (by omega)
    rw [e1, e2]
  · -- many0ChunkF at any sufficient fuel equals many0Chunk
    obtain ⟨f, rfl⟩ : ∃ g, fuel = g + 1 := ⟨fuel - 1, by omega⟩
    show many0ChunkF (f + 1) i = many0ChunkF (i.length + 2 + 1) i
    rw [many0ChunkF, many0ChunkF]
    have ec1 : chunkParseF f i = Chunk.parse i :=
      (IH f (by omega)).1 i (by omega)
    have ec2 : chunkParseF (i.length + 2) i = Chunk.parse i :=
      (IH (i.length + 2) (by omega)).1 i (by omega)
    rw [ec1, ec2]
    cases hp : Chunk.parse i with
    | err => rfl
    | panic => rfl
    | ok rest c =>
      dsimp only
      obtain ⟨size, _, _, _, hlen⟩ := chunkParseF_ok_shape hp
      have hne : ¬ rest.length = i.length := by omega
      rw [if_neg hne, if_neg hne]
      have em1 : many0ChunkF f rest = many0Chunk rest :=
        (IH f (by omega)).2.2 rest (by omega)
      have em2 : many0ChunkF (i.length + 2) rest = many0Chunk rest :=
        (IH (i.length + 2) (by omega)).2.2 rest (by omega)
      rw [em1, em2]

/-- Canonicalization corollary for `chunkParseF`. -/
theorem chunkParseF_canon {fuel : Nat} {i : List Nat}
    (h : i.length + 2 ≤ fuel) : chunkParseF fuel i = Chunk.parse i :=
  (parse_fuel_canon fuel).1 i h

/-- Canonicalization corollary for `contentParseF`. -/
theorem contentParseF_canon {fuel : Nat} {i : List Nat} {ty version : Nat}
    (h : i.length + 13 ≤ fuel) :
    contentParseF fuel i ty version = ChunkContent.parse i ty version :=
  (parse_fuel_canon fuel).2.1 i ty version h

/-- Canonicalization corollary for `many0ChunkF`. -/
theorem many0ChunkF_canon {fuel : Nat} {i : List Nat}
    (h : i.length + 3 ≤ fuel) : many0ChunkF fuel i = many0Chunk i :=
  (parse_fuel_canon fuel).2.2 i h

/-- The `ChunkContent.parse` is the tag dispatch applied to the children parse
of the payload. -/
theorem content_parse_eq_dispatch (i : List Nat) (ty version : Nat) :
    ChunkContent.parse i ty version =
      contentDispatch (many0Chunk i) i ty version := by
  show contentParseF (i.length + 12 + 1) i ty version = _
  rw [contentParseF, many0ChunkF_canon (by omega)]

/-- Bounded-input induction: when `many0Chunk` stops successfully, the
remaining input does not parse as a chunk (nom's `many0` stops exactly at
the first error of the inner parser). -/
theorem many0Chunk_stop_bounded : ∀ (n : Nat) (i : List Nat), i.length ≤ n →
    ∀ rest cs, many0Chunk i = .ok rest cs → Chunk.parse rest = .err := by
  intro n
  induction n with
  | zero =>
    intro i hlen rest cs h
    have hi : i = [] := List.length_eq_zero.mp (by omega)
    subst hi
    have he : many0Chunk [] = .ok [] [] := rfl
    rw [he] at h
    simp only [PResult.ok.injEq] at h
    rw [← h.1]
    rfl
  | succ n IHn =>
    intro i hlen rest cs h
    rw [many0Chunk, show i.length + 3 = (i.length + 2) + 1 from rfl,
      many0ChunkF] at h
    rw [show chunkParseF (i.length + 2) i = Chunk.parse i from rfl] at h
    cases hp : Chunk.parse i with
    | err =>
      rw [hp] at h
      simp only [PResult.ok.injEq] at h
      rw [← h.1]
      exact hp
    | panic => rw [hp] at h; cases h
    | ok r c =>
      rw [hp] at h
      dsimp only at h
      obtain ⟨size, _, _, _, hlen2⟩ := chunkParseF_ok_shape hp
      have hne : ¬ r.length = i.length := by omega
      rw [if_neg hne, many0ChunkF_canon (by omega)] at h
      cases hm : many0Chunk r with
      | ok r2 cs2 =>
        rw [hm] at h
        simp only [PResult.ok.injEq] at h
        exact h.1 ▸ IHn r (by omega) r2 cs2 hm
      | err => rw [hm] at h; cases h
      | panic => rw [hm] at h; cases h

/-- When no child matches, the retain pass either keeps everything with an
unchanged accumulator or propagates a panic from a struct decoder. -/
theorem retainStruct_no_match {α : Type} (g : List Nat → PResult α)
    (acc : Option α) (cs : List Chunk)
    (h : ∀ c ∈ cs, ¬ isStructMatch g c) :
    retainStruct g acc cs = .val (acc, cs) ∨
      retainStruct g acc cs = .panic := by
  induction cs with
  | nil => left; rfl
  | cons c rest IH =>
    have hrest : ∀ c2 ∈ rest, ¬ isStructMatch g c2 :=
      fun c2 hc2 => h c2 (List.mem_cons_of_mem c hc2)
    rw [retainStruct]
    split
    · next bytes heq =>
      cases hg : g bytes with
      | ok r s =>
        exact absurd ⟨bytes, heq, r, s, hg⟩ (h c (List.mem_cons_self c rest))
      | err =>
        rcases IH hrest with h1 | h1 <;> rw [h1]
        · left; rfl
        · right; rfl
      | panic => right; rfl
    · rcases IH hrest with h1 | h1 <;> rw [h1]
      · left; rfl
      · right; rfl

/-- When the retain pass produced a struct value, either it was already in
the accumulator or some child matched. -/
theorem retainStruct_some_match {α : Type} {g : List Nat → PResult α} :
    ∀ {cs : List Chunk} {acc : Option α} {s : α} {kept : List Chunk},
      retainStruct g acc cs = .val (some s, kept) →
      acc = some s ∨ ∃ c ∈ cs, isStructMatch g c := by
  intro cs
  induction cs with
  | nil =>
    intro acc s kept h
    rw [retainStruct] at h
    cases h
    left; rfl
  | cons c rest IH =>
    intro acc s kept h
    rw [retainStruct] at h
    split at h
    · next bytes heq =>
      cases hg : g bytes with
      | ok r s2 =>
        rw [hg] at h
        right
        exact ⟨c, List.mem_cons_self c rest, bytes, heq, r, s2, hg⟩
      | err =>
        rw [hg] at h
        dsimp only at h
        cases hval : retainStruct g acc rest with
        | val p =>
          obtain ⟨a, k⟩ := p
          rw [hval] at h
          simp only [POut.val.injEq, Prod.mk.injEq] at h
          rcases IH (h.1 ▸ hval) with h1 | h1
          · left; exact h1
          · right
            obtain ⟨c2, hc2, hm⟩ := h1
            exact ⟨c2, List.mem_cons_of_mem c hc2, hm⟩
        | panic => rw [hval] at h; cases h
      | panic => rw [hg] at h; cases h
    · cases hval : retainStruct g acc rest with
      | val p =>
        obtain ⟨a, k⟩ := p
        rw [hval] at h
        simp only [POut.val.injEq, Prod.mk.injEq] at h
        rcases IH (h.1 ▸ hval) with h1 | h1
        · left; exact h1
        · right
          obtain ⟨c2, hc2, hm⟩ := h1
          exact ⟨c2, List.mem_cons_of_mem c hc2, hm⟩
      | panic => rw [hval] at h; cases h

/-- The `structAndChildren` panics when no child matches under the grammar. -/
theorem structAndChildren_no_match {α : Type} (g : List Nat → PResult α)
    (mk : α → ChunkContent) (restAfter : List Nat) (cs : List Chunk)
    (h : ∀ c ∈ cs, ¬ isStructMatch g c) :
    structAndChildren g mk restAfter cs = .panic := by
  rw [structAndChildren]
  rcases retainStruct_no_match g none cs h with h1 | h1 <;> rw [h1]

/-- Inversion of a successful `structAndChildren`: the value comes from the
retain pass, the absorbed struct exists, and some child matched. -/
theorem structAndChildren_ok {α : Type} {g : List Nat → PResult α}
    {mk : α → ChunkContent} {restAfter r : List Nat} {cs : List Chunk}
    {out : ChunkContent × Option (List Chunk)}
    (h : structAndChildren g mk restAfter cs = .ok r out) :
    r = restAfter ∧ ∃ s kept,
      retainStruct g none cs = .val (some s, kept) ∧
      out = (mk s, some kept) ∧ ∃ c ∈ cs, isStructMatch g c := by
  rw [structAndChildren] at h
  cases hr : retainStruct g none cs with
  | panic => rw [hr] at h; cases h
  | val p =>
    obtain ⟨a, kept⟩ := p
    cases a with
    | none => rw [hr] at h; cases h
    | some s =>
      rw [hr] at h
      simp only [PResult.ok.injEq] at h
      rcases retainStruct_some_match hr with h1 | h1
      · cases h1
      · exact ⟨h.1.symm, s, kept, rfl, h.2.symm, h1⟩

/-- A 32-bit id whose upper 16 bits are zero is below `2^16`. -/
theorem lib_id_hi_zero_small (id : Nat) (h32 : id < 4294967296)
    (h : id &&& 0xFFFF0000 = 0) : id < 65536 := by
  have key : id &&& 65535 = id := by
    apply Nat.eq_of_testBit_eq
    intro k
    rcases lt_or_ge k 16 with hk | hk
    · have : (65535 : Nat).testBit k = true := by
        have : (65535 : Nat) = 2 ^ 16 - 1 := by norm_num
        rw [this, Nat.testBit_two_pow_sub_one]; simp [hk]
      simp [Nat.testBit_and, this]
    · have hm : (65535 : Nat).testBit k = false := by
        have : (65535 : Nat) = 2 ^ 16 - 1 := by norm_num
        rw [this, Nat.testBit_two_pow_sub_one]; simp; omega
      have hid : id.testBit k = false := by
        rcases lt_or_ge k 32 with hk32 | hk32
        · have hmask : (0xFFFF0000 : Nat).testBit k = true := by
            have : (0xFFFF0000 : Nat) = (2 ^ 16 - 1) <<< 16 := by
              rw [Nat.shiftLeft_eq]; norm_num
            rw [this, Nat.testBit_shiftLeft, Nat.testBit_two_pow_sub_one]
            simp; omega
          have := congrArg (fun n => n.testBit k) h
          simp [Nat.testBit_and, hmask] at this
          exact this
        · exact Nat.testBit_eq_false_of_lt (lt_of_lt_of_le h32 (by
            calc (4294967296 : Nat) = 2 ^ 32 := by norm_num
            _ ≤ 2 ^ k := Nat.pow_le_pow_right (by norm_num) hk32))
      simp [Nat.testBit_and, hm, hid]
  have hmod : id &&& 65535 = id % 65536 := by
    have h1 : (65535 : Nat) = 2 ^ 16 - 1 := by norm_num
    rw [h1, Nat.and_pow_two_sub_one_eq_mod]
  omega

/-- C2: the version codec is total over 32-bit ids and follows the two
mutually exclusive packing rules, with the literal vectors
`0x00020001 ↦ (0x00030002, 1)` and `0x00000310 ↦ (0x00031000, 0)`. -/
theorem c2_version_codec :
    (∀ id : Nat, id < 4294967296 →
      (id &&& 0xFFFF0000 ≠ 0 →
        get_chunk_version id =
          ((((id >>> 14) &&& 0x3FF00) + 0x30000) ||| ((id >>> 16) &&& 0x3F)) ∧
        get_chunk_build id = id &&& 0xFFFF) ∧
      (id &&& 0xFFFF0000 = 0 →
        get_chunk_version id = id <<< 8 ∧ get_chunk_build id = 0)) ∧
    get_chunk_version 0x00020001 = 0x00030002 ∧
    get_chunk_build 0x00020001 = 1 ∧
    get_chunk_version 0x00000310 = 0x00031000 ∧
    get_chunk_build 0x00000310 = 0 := by
  refine ⟨fun id h32 => ⟨fun hne => ?_, fun heq => ?_⟩, by decide, by decide,
    by decide, by decide⟩
  · simp [get_chunk_version, get_chunk_build, hne]
  · have hsmall : id < 65536 := lib_id_hi_zero_small id h32 heq
    have hlt : id <<< 8 < 4294967296 := by
      rw [Nat.shiftLeft_eq]; norm_num; omega
    simp [get_chunk_version, get_chunk_build, heq, Nat.mod_eq_of_lt hlt]

/-- Witness for C2 at a concrete 32-bit id. -/
theorem c2_version_codec_witness :
    get_chunk_version 0x00020001 =
      ((((0x00020001 >>> 14) &&& 0x3FF00) + 0x30000) |||
        ((0x00020001 >>> 16) &&& 0x3F)) ∧
    get_chunk_build 0x00020001 = 0x00020001 &&& 0xFFFF :=
  (c2_version_codec.1 0x00020001 (by norm_num)).1 (by decide)

/-- The `TextureAddressingMode.from_u8` is `none` exactly above 4. -/
theorem taddr_from_u8_none {n : Nat} :
    TextureAddressingMode.from_u8 n = none ↔ 4 < n := by
  match n with
  | 0 | 1 | 2 | 3 | 4 => simp [TextureAddressingMode.from_u8]
  | n + 5 => simp [TextureAddressingMode.from_u8]

/-- C5 (code bug): in `RpGeometry::parse` the expression
`(format & 0x00FF0000) << 16` is identically zero in `u32` arithmetic, so
the texture-channel sub-field (bits 16-23) is never used and the channel
count always falls through to the textured-bit rules; with
`format = 0x00030000` (sub-field 3, textured bits clear) the decoded
channel count is 0 and the geometry decodes zero texture-coordinate sets. -/
theorem c5_texset_subfield_dead :
    (∀ format : Nat, ((format &&& 0x00FF0000) <<< 16) % 4294967296 = 0) ∧
    numTexSets 0x00030000 = 0 ∧
    numTexSets 0x00030004 = 1 ∧
    numTexSets 0x00030080 = 2 ∧
    RpGeometry.parse geoC5 0x34003 =
      .ok [] { format := 0x00030000, num_triangles := 0, num_vertices := 1,
               num_morphs := 0, surface_prop := none, prelit := [],
               tex_coords := [], triangles := [], vertices := [],
               normals := [] } := by
  refine ⟨fun format => ?_, rfl, rfl, rfl, rfl⟩
  have hmask : (format &&& 0x00FF0000) &&& 65535 = 0 := by
    rw [Nat.and_assoc]
    have h0 : (16711680 : Nat) &&& 65535 = 0 := by decide
    rw [show (0x00FF0000 : Nat) &&& 65535 = 0 from h0, Nat.and_zero]
  have hmod : (format &&& 0x00FF0000) % 65536 = 0 := by
    have : (65535 : Nat) = 2 ^ 16 - 1 := by norm_num
    rw [this, Nat.and_pow_two_sub_one_eq_mod] at hmask
    exact hmask
  obtain ⟨k, hk⟩ : ∃ k, format &&& 0x00FF0000 = 65536 * k :=
    ⟨(format &&& 0x00FF0000) / 65536, by omega⟩
  rw [Nat.shiftLeft_eq, hk]
  norm_num
  ring_nf
  omega

/-- A successful `le_f32` consumes exactly four bytes. -/
theorem le_f32_ok {i r : List Nat} {v : Nat} (h : le_f32 i = .ok r v) :
    i.length = r.length + 4 := by
  rw [le_f32] at h
  exact (le_u32_ok h).2

/-- A successful `RwRGBA.parse_le` consumes exactly four bytes. -/
theorem rwRGBA_parse_len {i r : List Nat} {v : RwRGBA}
    (h : RwRGBA.parse_le i = .ok r v) : i.length = r.length + 4 := by
  rw [RwRGBA.parse_le, PResult.bind_eq_ok] at h
  obtain ⟨j1, b1, hb1, h⟩ := h
  rw [PResult.bind_eq_ok] at h
  obtain ⟨j2, b2, hb2, h⟩ := h
  rw [PResult.bind_eq_ok] at h
  obtain ⟨j3, b3, hb3, h⟩ := h
  rw [PResult.bind_eq_ok] at h
  obtain ⟨j4, b4, hb4, h⟩ := h
  simp only [PResult.ok.injEq] at h
  have e1 := (le_u8_ok hb1).2
  have e2 := (le_u8_ok hb2).2
  have e3 := (le_u8_ok hb3).2
  have e4 := (le_u8_ok hb4).2
  obtain ⟨hj, _⟩ := h
  subst hj
  omega

/-- A successful `RpSurfProp.parse_le` consumes exactly twelve bytes. -/
theorem rpSurfProp_parse_len {i r : List Nat} {v : RpSurfProp}
    (h : RpSurfProp.parse_le i = .ok r v) : i.length = r.length + 12 := by
  rw [RpSurfProp.parse_le, PResult.bind_eq_ok] at h
  obtain ⟨j1, b1, hb1, h⟩ := h
  rw [PResult.bind_eq_ok] at h
  obtain ⟨j2, b2, hb2, h⟩ := h
  rw [PResult.bind_eq_ok] at h
  obtain ⟨j3, b3, hb3, h⟩ := h
  simp only [PResult.ok.injEq] at h
  have e1 := le_f32_ok hb1
  have e2 := le_f32_ok hb2
  have e3 := le_f32_ok hb3
  obtain ⟨hj, _⟩ := h
  subst hj
  omega

/-- C7: the material decoder reads flags, RGBA color, an unused word and an
is-textured word (16 bytes), and reads the 3-float surface-properties block
exactly when `version > 0x30400`; the same 28 bytes decoded at version
0x30300 leave `surface_prop` absent (12 bytes unread) and at version
0x30500 consume all 28 bytes with `surface_prop` present. -/
theorem c7_material_version_gate :
    (∀ (i : List Nat) (version : Nat) (rest : List Nat) (m : RpMaterial),
      RpMaterial.parse i version = .ok rest m →
      ((0x30400 < version → m.surface_prop.isSome) ∧
        (version ≤ 0x30400 → m.surface_prop = none) ∧
        i.length = rest.length + (if 0x30400 < version then 28 else 16))) ∧
    RpMaterial.parse mat28 0x30300 =
      .ok (List.replicate 12 0)
        { color := ⟨0, 0, 0, 0⟩, surface_prop := none } ∧
    RpMaterial.parse mat28 0x30500 =
      .ok [] { color := ⟨0, 0, 0, 0⟩,
               surface_prop := some ⟨0, 0, 0⟩ } := by
  refine ⟨fun i version rest m h => ?_, rfl, rfl⟩
  rw [RpMaterial.parse, PResult.bind_eq_ok] at h
  obtain ⟨i1, flags, h1, h⟩ := h
  rw [PResult.bind_eq_ok] at h
  obtain ⟨i2, color, h2, h⟩ := h
  rw [PResult.bind_eq_ok] at h
  obtain ⟨i3, unused, h3, h⟩ := h
  rw [PResult.bind_eq_ok] at h
  obtain ⟨i4, istex, h4, h⟩ := h
  have hl1 := (le_u32_ok h1).2
  have hl2 := rwRGBA_parse_len h2
  have hl3 := (le_u32_ok h3).2
  have hl4 := (le_u32_ok h4).2
  by_cases hv : 0x30400 < version
  · rw [if_pos hv] at h
    rw [PResult.bind_eq_ok] at h
    obtain ⟨i5, s, h5, h⟩ := h
    have hl5 := rpSurfProp_parse_len h5
    simp only [PResult.ok.injEq] at h
    obtain ⟨hr, hm⟩ := h
    subst hr
    refine ⟨fun _ => ?_, fun hle => by omega, ?_⟩
    · rw [← hm]; rfl
    · rw [if_pos hv]; omega
  · rw [if_neg hv] at h
    simp only [PResult.ok.injEq] at h
    obtain ⟨hr, hm⟩ := h
    subst hr
    refine ⟨fun hgt => absurd hgt hv, fun _ => ?_, ?_⟩
    · rw [← hm]
    · rw [if_neg hv]; omega

/-- Witness for C7 at the concrete material bytes and version 0x30500. -/
theorem c7_material_version_gate_witness :
    (0x30400 < 0x30500 →
      (RpMaterial.mk ⟨0, 0, 0, 0⟩ (some ⟨0, 0, 0⟩)).surface_prop.isSome) ∧
    mat28.length =
      ([] : List Nat).length + (if 0x30400 < 0x30500 then 28 else 16) :=
  ⟨(c7_material_version_gate.1 mat28 0x30500 []
      (RpMaterial.mk ⟨0, 0, 0, 0⟩ (some ⟨0, 0, 0⟩)) rfl).1,
    (c7_material_version_gate.1 mat28 0x30500 []
      (RpMaterial.mk ⟨0, 0, 0, 0⟩ (some ⟨0, 0, 0⟩)) rfl).2.2⟩

/-- Counterexample to C9 as stated: an out-of-range addressing nibble (low
nibble 5) makes `RpTexture::parse` panic (`unwrap` of `None`); it does not
return an error result. -/
theorem c9_counterexample_panic_not_error :
    RpTexture.parse [0, 5] = .panic ∧
    RpTexture.parse [0, 5] ≠ PResult.err := ⟨rfl, by decide⟩

/-- C9 (amended): when the texture decoder meets an addressing-mode nibble
greater than 4, decoding panics via the `unwrap` of `from_u8`, aborting the
whole tree decode by panic (as the concrete Texture chunk `c9buf` shows)
rather than returning an `InvalidEnumValue`-style error result. -/
theorem c9_amended_nibble_unwrap_panics :
    (∀ (i i1 : List Nat) (f : TextureFilteringMode) (i2 : List Nat)
      (addr : Nat),
      TextureFilteringMode.parse_le i = .ok i1 f →
      le_u8 i1 = .ok i2 addr →
      (4 < (addr &&& 0b11110000) >>> 4 ∨ 4 < addr &&& 0b00001111) →
      RpTexture.parse i = .panic) ∧
    Chunk.parse c9buf = .panic := by
  refine ⟨fun i i1 f i2 addr h1 h2 hbad => ?_, rfl⟩
  rw [RpTexture.parse, h1]
  simp only [PResult.bind]
  rw [h2]
  simp only [PResult.bind]
  rcases hbad with hhi | hlo
  · rw [taddr_from_u8_none.2 hhi]
  · cases hh : TextureAddressingMode.from_u8 ((addr &&& 0b11110000) >>> 4) with
    | none => rfl
    | some ah => rw [taddr_from_u8_none.2 hlo]

/-- Witness for the amended C9 at the concrete input [0, 5]. -/
theorem c9_amended_nibble_unwrap_panics_witness :
    RpTexture.parse [0, 5] = PResult.panic :=
  c9_amended_nibble_unwrap_panics.1 [0, 5] [5] .FILTERNAFILTERMODE [] 5
    rfl rfl (Or.inr (by decide))

/-- C6: with the native-platform-data bit set, prelit colors, texture
coordinates and triangles are all left empty regardless of the declared
counts, the bounding sphere is still read, and the vertex and normal arrays
are still decoded gated by their own presence flags (each array is either
empty or has exactly `num_vertices` entries); concretely, a native-format
payload with 5 declared triangles and 2 vertices, presence flags 1 and 0,
decodes to empty section arrays, two vertices and no normals. -/
theorem c6_native_skips_sections :
    (∀ (i : List Nat) (version : Nat) (rest : List Nat) (g : RpGeometry),
      RpGeometry.parse i version = .ok rest g →
      g.format &&& RP_GEOMETRYNATIVE ≠ 0 →
      g.prelit = [] ∧ g.tex_coords = [] ∧ g.triangles = [] ∧
      (g.vertices = [] ∨ g.vertices.length = g.num_vertices) ∧
      (g.normals = [] ∨ g.normals.length = g.num_vertices)) ∧
    RpGeometry.parse geoC6 0x34003 =
      .ok [] { format := 0x01000000, num_triangles := 5, num_vertices := 2,
               num_morphs := 1, surface_prop := none, prelit := [],
               tex_coords := [], triangles := [],
               vertices := [⟨0, 0, 0⟩, ⟨0, 0, 0⟩], normals := [] } := by
  refine ⟨fun i version rest g h hnative => ?_, rfl⟩
  rw [RpGeometry.parse, PResult.bind_eq_ok] at h
  obtain ⟨i1, format, h1, h⟩ := h
  rw [PResult.bind_eq_ok] at h
  obtain ⟨i2, nt, h2, h⟩ := h
  rw [PResult.bind_eq_ok] at h
  obtain ⟨i3, nv, h3, h⟩ := h
  rw [PResult.bind_eq_ok] at h
  obtain ⟨i4, nm, h4, h⟩ := h
  dsimp only at h
  rw [PResult.bind_eq_ok] at h
  obtain ⟨i5, sp, h5, h⟩ := h
  rw [PResult.bind_eq_ok] at h
  obtain ⟨i6, sections, h6, h⟩ := h
  rw [PResult.bind_eq_ok] at h
  obtain ⟨i7, sphere, h7, h⟩ := h
  rw [PResult.bind_eq_ok] at h
  obtain ⟨i8, hv, h8, h⟩ := h
  rw [PResult.bind_eq_ok] at h
  obtain ⟨i9, hn, h9, h⟩ := h
  rw [PResult.bind_eq_ok] at h
  obtain ⟨i10, verts, h10, h⟩ := h
  rw [PResult.bind_eq_ok] at h
  obtain ⟨i11, norms, h11, h⟩ := h
  simp only [PResult.ok.injEq] at h
  obtain ⟨hr, hg⟩ := h
  subst hg
  have hfmt : format &&& RP_GEOMETRYNATIVE ≠ 0 := hnative
  rw [if_neg hfmt] at h6
  simp only [PResult.ok.injEq] at h6
  obtain ⟨hi6, hsec⟩ := h6
  refine ⟨?_, ?_, ?_, ?_, ?_⟩
  · show sections.1 = []
    rw [← hsec]
  · show sections.2.1 = []
    rw [← hsec]
  · show sections.2.2 = []
    rw [← hsec]
  · show verts = [] ∨ verts.length = nv
    split at h10
    · right
      exact countP_ok_length h10
    · left
      simp only [PResult.ok.injEq] at h10
      exact h10.2.symm
  · show norms = [] ∨ norms.length = nv
    split at h11
    · right
      exact countP_ok_length h11
    · left
      simp only [PResult.ok.injEq] at h11
      exact h11.2.symm

/-- Witness for C6 at the concrete native-bit payload. -/
theorem c6_native_skips_sections_witness :
    (RpGeometry.mk 0x01000000 5 2 1 none [] [] [] [⟨0, 0, 0⟩, ⟨0, 0, 0⟩]
        []).prelit = [] ∧
    ((RpGeometry.mk 0x01000000 5 2 1 none [] [] [] [⟨0, 0, 0⟩, ⟨0, 0, 0⟩]
        []).vertices = [] ∨
      (RpGeometry.mk 0x01000000 5 2 1 none [] [] [] [⟨0, 0, 0⟩, ⟨0, 0, 0⟩]
        []).vertices.length =
        (RpGeometry.mk 0x01000000 5 2 1 none [] [] [] [⟨0, 0, 0⟩, ⟨0, 0, 0⟩]
          []).num_vertices) :=
  ⟨(c6_native_skips_sections.1 geoC6 0x34003 []
      (RpGeometry.mk 0x01000000 5 2 1 none [] [] [] [⟨0, 0, 0⟩, ⟨0, 0, 0⟩] [])
      rfl (by decide)).1,
    (c6_native_skips_sections.1 geoC6 0x34003 []
      (RpGeometry.mk 0x01000000 5 2 1 none [] [] [] [⟨0, 0, 0⟩, ⟨0, 0, 0⟩] [])
      rfl (by decide)).2.2.2.1⟩

/-- C1: whenever `Chunk::parse` succeeds, it consumes exactly `12 + size`
bytes, where `size` is the declared payload size read from the 12-byte
header, and the returned remainder starts `12 + size` bytes after the
chunk's start. -/
theorem c1_consumed_exactly_header_plus_size :
    ∀ (i rest : List Nat) (c : Chunk), Chunk.parse i = .ok rest c →
      ∃ size, declaredSize i = some size ∧ rest = i.drop (12 + size) ∧
        i.length = 12 + size + rest.length := by
  intro i rest c h
  rw [Chunk.parse] at h
  obtain ⟨size, h1, _, h3, h4⟩ := chunkParseF_ok_shape h
  exact ⟨size, h1, h3, h4⟩

/-- Witness for C1 at a concrete unknown-tag chunk of declared size 3. -/
theorem c1_consumed_exactly_header_plus_size_witness :
    ∃ size,
      declaredSize [0x42, 0, 0, 0, 3, 0, 0, 0, 0, 0, 0, 0, 1, 2, 3] =
        some size ∧
      ([] : List Nat) =
        List.drop (12 + size) [0x42, 0, 0, 0, 3, 0, 0, 0, 0, 0, 0, 0, 1, 2, 3] ∧
      ([0x42, 0, 0, 0, 3, 0, 0, 0, 0, 0, 0, 0, 1, 2, 3] : List Nat).length =
        12 + size + ([] : List Nat).length :=
  c1_consumed_exactly_header_plus_size _ []
    (Chunk.mk ⟨0, 0⟩ (.Section 0x42 [1, 2, 3]) none) rfl

/-- C8: a chunk whose declared payload size exceeds the bytes remaining
after its 12-byte header makes `Chunk::parse` return an error result (the
bounds failure of `take(size)`); it neither succeeds nor panics. -/
theorem c8_oversized_size_is_error :
    ∀ (i : List Nat) (size : Nat), declaredSize i = some size →
      12 ≤ i.length → i.length - 12 < size → Chunk.parse i = .err := by
  intro i size hds hlen hover
  show chunkParseF (i.length + 2) i = .err
  rw [show i.length + 2 = (i.length + 1) + 1 from rfl, chunkParseF]
  obtain ⟨i1, ty, h1⟩ := le_u32_total (i := i) (by omega)
  rw [h1]
  simp only [PResult.bind]
  obtain ⟨hd1, hl1⟩ := le_u32_ok h1
  obtain ⟨i2, size2, h2⟩ := le_u32_total (i := i1) (by omega)
  rw [h2]
  simp only [PResult.bind]
  obtain ⟨hd2, hl2⟩ := le_u32_ok h2
  have hsz : size2 = size := by
    rw [declaredSize, ← hd1, h2] at hds
    simp only [Option.some.injEq] at hds
    exact hds
  obtain ⟨i3, lib, h3⟩ := le_u32_total (i := i2) (by omega)
  obtain ⟨hd3, hl3⟩ := le_u32_ok h3
  have hch : ChunkHeader.parse i2 =
      .ok i3 ⟨get_chunk_version lib, get_chunk_build lib⟩ := by
    rw [ChunkHeader.parse, h3]
    rfl
  rw [hch]
  simp only [PResult.bind]
  have htake : takeP size2 i3 = .err := by
    rw [takeP, if_neg]
    omega
  rw [htake]

/-- Witness for C8: declared size 2313 with zero payload bytes available. -/
theorem c8_oversized_size_is_error_witness :
    Chunk.parse [1, 0, 0, 0, 9, 9, 0, 0, 0, 0, 0, 0] = PResult.err :=
  c8_oversized_size_is_error [1, 0, 0, 0, 9, 9, 0, 0, 0, 0, 0, 0] 2313
    rfl (by decide) (by decide)

/-- C3: the content dispatcher sends every unrecognized tag to the
`Section` (opaque) variant carrying the tag and the raw payload unchanged,
never failing; concretely a chunk with tag 0xDEADBEEF, size 3, lib id 0 and
payload [1,2,3] decodes to `Section 0xDEADBEEF [1,2,3]`, and a longer
buffer containing it as one sibling among others still parses. -/
theorem c3_unknown_tag_section_fallback :
    (∀ (ty : Nat) (bytes : List Nat) (version : Nat),
      ty ∉ ([0x01, 0x02, 0x03, 0x05, 0x06, 0x07, 0x08, 0x0E, 0x0F, 0x10,
        0x14, 0x15, 0x16, 0x1A] : List Nat) →
      ChunkContent.parse bytes ty version =
        .ok [] (.Section ty bytes, none)) ∧
    Chunk.parse c3buf = .ok [] (Chunk.mk ⟨0, 0⟩ .Extension (some
      [Chunk.mk ⟨0, 0⟩ (.Section 0xDEADBEEF [1, 2, 3]) none,
       Chunk.mk ⟨0, 0⟩ (.Section 0x99 []) none])) := by
  refine ⟨fun ty bytes version hty => ?_, rfl⟩
  rw [content_parse_eq_dispatch, contentDispatch]
  all_goals simp_all

/-- Witness for C3's universal part at the concrete tag 0xDEADBEEF. -/
theorem c3_unknown_tag_section_fallback_witness :
    ChunkContent.parse [1, 2, 3] 0xDEADBEEF 0 =
      .ok [] (.Section 0xDEADBEEF [1, 2, 3], none) :=
  c3_unknown_tag_section_fallback.1 0xDEADBEEF [1, 2, 3] 0 (by decide)

/-- Counterexample to C4 as stated: an Extension container with a 5-byte
payload that parses as no child still succeeds with zero children; the
children consume none of the 5 declared payload bytes, which are silently
discarded rather than required to be exhausted. -/
theorem c4_counterexample_leftover_discarded :
    Chunk.parse c4buf = .ok [] (Chunk.mk ⟨0, 0⟩ .Extension (some [])) ∧
    declaredSize c4buf = some 5 := ⟨rfl, rfl⟩

/-- C4 (amended): for the container tags, children are parsed repeatedly
from the payload exactly until the remainder fails to parse as a chunk;
that (possibly nonempty) remainder is discarded by the caller rather than
required to be empty. -/
theorem c4_amended_children_until_unparseable :
    ∀ ty ∈ ([0x03, 0x05, 0x0E, 0x10, 0x14, 0x16, 0x1A] : List Nat),
      ∀ (data : List Nat) (version : Nat) (r : List Nat)
        (content : ChunkContent) (cs : List Chunk),
        ChunkContent.parse data ty version = .ok r (content, some cs) →
        many0Chunk data = .ok r cs ∧ Chunk.parse r = .err := by
  intro ty hty data version r content cs hp
  fin_cases hty <;>
  · rw [content_parse_eq_dispatch] at hp
    cases hm : many0Chunk data with
    | ok r1 cs1 =>
      rw [hm] at hp
      simp only [contentDispatch, PResult.bind, PResult.ok.injEq,
        Prod.mk.injEq, Option.some.injEq] at hp
      obtain ⟨hr1, hcont, hcs1⟩ := hp
      subst hr1
      subst hcs1
      exact ⟨rfl, many0Chunk_stop_bounded data.length data le_rfl _ _ hm⟩
    | err =>
      rw [hm] at hp
      simp only [contentDispatch, PResult.bind] at hp
      cases hp
    | panic =>
      rw [hm] at hp
      simp only [contentDispatch, PResult.bind] at hp
      cases hp

/-- Witness for the amended C4 at a concrete Extension payload of 5 bytes
that parse as no child. -/
theorem c4_amended_children_until_unparseable_witness :
    many0Chunk [0, 0, 0, 0, 0] = .ok [0, 0, 0, 0, 0] [] ∧
    Chunk.parse [0, 0, 0, 0, 0] = PResult.err :=
  c4_amended_children_until_unparseable 0x03 (by decide) [0, 0, 0, 0, 0] 0
    [0, 0, 0, 0, 0] .Extension [] rfl

/-- Generic behaviour of a struct-absorbing dispatch branch, given the
children parse of the payload. -/
theorem structDispatch_cases {α : Type} {g : List Nat → PResult α}
    {mk : α → ChunkContent} {data rest : List Nat} {cs : List Chunk}
    (hm : many0Chunk data = .ok rest cs) :
    ((∀ c ∈ cs, ¬ isStructMatch g c) →
      ((many0Chunk data).bind fun r2 cs2 => structAndChildren g mk r2 cs2) =
        .panic) ∧
    (∀ (r : List Nat) (out : ChunkContent × Option (List Chunk)),
      ((many0Chunk data).bind fun r2 cs2 => structAndChildren g mk r2 cs2) =
          .ok r out →
      r = rest ∧ ∃ s kept, retainStruct g none cs = .val (some s, kept) ∧
        out = (mk s, some kept) ∧ ∃ c ∈ cs, isStructMatch g c) := by
  constructor
  · intro hno
    rw [hm]
    simp only [PResult.bind]
    exact structAndChildren_no_match g mk rest cs hno
  · intro r out h
    rw [hm] at h
    simp only [PResult.bind] at h
    exact structAndChildren_ok h

/-- C10: for the five struct-absorbing tags (Texture 0x06, Material 0x07,
MaterialList 0x08, Geometry 0x0F, Raster 0x15), the content parse succeeds
only if some decoded child carries `Struct` content whose bytes parse under
that tag's grammar; the matching child is removed by the retain pass and
its parsed struct absorbed into the content; when no child matches, the
parse panics (the `unwrap` of `None`) instead of returning an error value —
as the concrete Material chunk with no children demonstrates at the
`Chunk::parse` level. -/
theorem c10_struct_child_required_else_panic :
    (∀ (data : List Nat) (version : Nat) (rest : List Nat) (cs : List Chunk),
      many0Chunk data = .ok rest cs →
      ((((∀ c ∈ cs, ¬ isStructMatch (fun b => RpTexture.parse b) c) →
          ChunkContent.parse data 0x06 version = .panic) ∧
        (∀ (r : List Nat) (out : ChunkContent × Option (List Chunk)),
          ChunkContent.parse data 0x06 version = .ok r out →
          r = rest ∧ ∃ s kept,
            retainStruct (fun b => RpTexture.parse b) none cs =
              .val (some s, kept) ∧
            out = (ChunkContent.Texture s, some kept) ∧
            ∃ c ∈ cs, isStructMatch (fun b => RpTexture.parse b) c)) ∧
      (((∀ c ∈ cs, ¬ isStructMatch (fun b => RpMaterial.parse b version) c) →
          ChunkContent.parse data 0x07 version = .panic) ∧
        (∀ (r : List Nat) (out : ChunkContent × Option (List Chunk)),
          ChunkContent.parse data 0x07 version = .ok r out →
          r = rest ∧ ∃ s kept,
            retainStruct (fun b => RpMaterial.parse b version) none cs =
              .val (some s, kept) ∧
            out = (ChunkContent.Material s, some kept) ∧
            ∃ c ∈ cs, isStructMatch (fun b => RpMaterial.parse b version) c)) ∧
      (((∀ c ∈ cs, ¬ isStructMatch
            (fun b => RpMaterialList.parse b version) c) →
          ChunkContent.parse data 0x08 version = .panic) ∧
        (∀ (r : List Nat) (out : ChunkContent × Option (List Chunk)),
          ChunkContent.parse data 0x08 version = .ok r out →
          r = rest ∧ ∃ s kept,
            retainStruct (fun b => RpMaterialList.parse b version) none cs =
              .val (some s, kept) ∧
            out = (ChunkContent.MaterialList s, some kept) ∧
            ∃ c ∈ cs, isStructMatch
              (fun b => RpMaterialList.parse b version) c)) ∧
      (((∀ c ∈ cs, ¬ isStructMatch (fun b => RpGeometry.parse b version) c) →
          ChunkContent.parse data 0x0F version = .panic) ∧
        (∀ (r : List Nat) (out : ChunkContent × Option (List Chunk)),
          ChunkContent.parse data 0x0F version = .ok r out →
          r = rest ∧ ∃ s kept,
            retainStruct (fun b => RpGeometry.parse b version) none cs =
              .val (some s, kept) ∧
            out = (ChunkContent.Geometry s, some kept) ∧
            ∃ c ∈ cs, isStructMatch (fun b => RpGeometry.parse b version) c)) ∧
      (((∀ c ∈ cs, ¬ isStructMatch (fun b => RpRasterPC.parse b version) c) →
          ChunkContent.parse data 0x15 version = .panic) ∧
        (∀ (r : List Nat) (out : ChunkContent × Option (List Chunk)),
          ChunkContent.parse data 0x15 version = .ok r out →
          r = rest ∧ ∃ s kept,
            retainStruct (fun b => RpRasterPC.parse b version) none cs =
              .val (some s, kept) ∧
            out = (ChunkContent.Raster s, some kept) ∧
            ∃ c ∈ cs, isStructMatch
              (fun b => RpRasterPC.parse b version) c)))) ∧
    Chunk.parse c10chunk = .panic := by
  refine ⟨fun data version rest cs hm => ?_, rfl⟩
  have e6 : ChunkContent.parse data 0x06 version =
      ((many0Chunk data).bind fun r2 cs2 =>
        structAndChildren (fun b => RpTexture.parse b)
          ChunkContent.Texture r2 cs2) :=
    content_parse_eq_dispatch data 0x06 version
  have e7 : ChunkContent.parse data 0x07 version =
      ((many0Chunk data).bind fun r2 cs2 =>
        structAndChildren (fun b => RpMaterial.parse b version)
          ChunkContent.Material r2 cs2) :=
    content_parse_eq_dispatch data 0x07 version
  have e8 : ChunkContent.parse data 0x08 version =
      ((many0Chunk data).bind fun r2 cs2 =>
        structAndChildren (fun b => RpMaterialList.parse b version)
          ChunkContent.MaterialList r2 cs2) :=
    content_parse_eq_dispatch data 0x08 version
  have e15 : ChunkContent.parse data 0x0F version =
      ((many0Chunk data).bind fun r2 cs2 =>
        structAndChildren (fun b => RpGeometry.parse b version)
          ChunkContent.Geometry r2 cs2) :=
    content_parse_eq_dispatch data 0x0F version
  have e21 : ChunkContent.parse data 0x15 version =
      ((many0Chunk data).bind fun r2 cs2 =>
        structAndChildren (fun b => RpRasterPC.parse b version)
          ChunkContent.Raster r2 cs2) :=
    content_parse_eq_dispatch data 0x15 version
  refine ⟨⟨fun hno => ?_, fun r out h => ?_⟩, ⟨fun hno => ?_, fun r out h => ?_⟩,
    ⟨fun hno => ?_, fun r out h => ?_⟩, ⟨fun hno => ?_, fun r out h => ?_⟩,
    ⟨fun hno => ?_, fun r out h => ?_⟩⟩
  · rw [e6]; exact (structDispatch_cases hm).1 hno
  · rw [e6] at h; exact (structDispatch_cases hm).2 r out h
  · rw [e7]; exact (structDispatch_cases hm).1 hno
  · rw [e7] at h; exact (structDispatch_cases hm).2 r out h
  · rw [e8]; exact (structDispatch_cases hm).1 hno
  · rw [e8] at h; exact (structDispatch_cases hm).2 r out h
  · rw [e15]; exact (structDispatch_cases hm).1 hno
  · rw [e15] at h; exact (structDispatch_cases hm).2 r out h
  · rw [e21]; exact (structDispatch_cases hm).1 hno
  · rw [e21] at h; exact (structDispatch_cases hm).2 r out h

/-- Witness for C10: a Material payload whose only child is a Struct chunk
with empty bytes (which the material grammar rejects) makes the content
parse panic. -/
theorem c10_struct_child_required_else_panic_witness :
    ChunkContent.parse c10badData 0x07 0 = PResult.panic :=
  ((c10_struct_child_required_else_panic.1 c10badData 0 []
      [Chunk.mk ⟨0, 0⟩ (.Struct []) none] rfl).2.1).1 (by
    intro c hc
    simp only [List.mem_singleton] at hc
    subst hc
    rintro ⟨bytes, hb, r, s, hg⟩
    simp only [Chunk.content, ChunkContent.Struct.injEq] at hb
    subst hb
    have hz : (fun b => RpMaterial.parse b 0) [] = PResult.err := rfl
    rw [hz] at hg
    cases hg)
